import Mathlib

/-!
Verification of the TLS client-policy subsystem of
`scrapy/core/downloader/contextfactory.py`.

The Python module configures, per outbound connection, which TLS method,
cipher policy, certificate-verification posture and ALPN/NPN protocol list
an HTTPS client uses.  We shallowly embed the module: the underlying
OpenSSL binding is modelled by its symbol table (each constant either
present with a numeric value, or absent), exceptions become `Except`, and
Python attribute lookups with defaults become `Option.getD`.
-/

namespace ContextFactory

/-- The symbol set of the local pyOpenSSL/OpenSSL binding (`OpenSSL.SSL`).
Each field is `some v` when the named constant is exposed with value `v`
and `none` when the local build does not expose it.  This is the input of
the capability probe: `getattr(SSL, name, default)` becomes `Option.getD`
and two-argument `getattr(SSL, name)` becomes a lookup that raises
`AttributeError` on `none`. -/
structure SSLSymbols where
  TLS_METHOD : Option Nat
  SSLv23_METHOD : Option Nat
  OP_NO_TLSv1 : Option Nat
  OP_NO_TLSv1_1 : Option Nat
  OP_NO_SSLv2 : Option Nat
  OP_NO_SSLv3 : Option Nat
  OP_LEGACY_SERVER_CONNECT : Option Nat
  deriving Repr, DecidableEq

/-- Python exceptions that the embedded code can raise. -/
inductive PyError where
  /-- `AttributeError`: two-argument `getattr` on an absent symbol. -/
  | attributeError
  /-- `UnicodeDecodeError`: `bytes.decode("ascii")` on a non-ASCII byte. -/
  | unicodeDecodeError
  /-- `zope.interface` verification failure raised by `verifyObject`. -/
  | doesNotImplement
  deriving Repr, DecidableEq

/-- Two-argument `getattr(SSL, name)`: returns the value when the symbol is
present and raises `AttributeError` otherwise. -/
def getattrStrict (sym : Option Nat) : Except PyError Nat :=
  match sym with
  | some v => .ok v
  | none => .error .attributeError

/-- `twisted.internet.ssl.AcceptableCiphers` values as the module uses them:
either the exact parse of an OpenSSL cipher string
(`AcceptableCiphers.fromOpenSSLCipherString`) or the process default
bundle.  Twisted itself is an external collaborator, so the policy is kept
as data; distinct cipher strings give distinct policies. -/
inductive AcceptableCiphers where
  | fromOpenSSLCipherString (s : String)
  | defaultBundle
  deriving Repr, DecidableEq

/-- Modelled from the spec: `DEFAULT_CIPHERS` lives in
`scrapy/core/downloader/tls.py`, which is not part of the supplied
sources.  The spec describes it as the library/process default cipher
bundle (a named default bundle, never empty). -/
def DEFAULT_CIPHERS : AcceptableCiphers := .defaultBundle

/-- The state of a `ScrapyClientContextFactory` instance after
construction: the resolved OpenSSL method, the verbose-logging flag and
the resolved cipher policy.  All three are set once by `__init__` and
never reassigned. -/
structure ScrapyClientContextFactory where
  ssl_method : Nat
  tls_verbose_logging : Bool
  tls_ciphers : AcceptableCiphers
  deriving Repr, DecidableEq

/-- The cipher-policy resolution in `ScrapyClientContextFactory.__init__`:
`if tls_ciphers: ... fromOpenSSLCipherString(tls_ciphers) else DEFAULT_CIPHERS`.
A `None` argument and the empty string are both falsy in Python. -/
def resolveCiphers (tls_ciphers : Option String) : AcceptableCiphers :=
  match tls_ciphers with
  | some s => if s = "" then DEFAULT_CIPHERS else .fromOpenSSLCipherString s
  | none => DEFAULT_CIPHERS

/-- The method-probe expression in `__init__`:
`getattr(SSL, "TLS_METHOD", getattr(SSL, "SSLv23_METHOD"))`.
Python evaluates the default argument eagerly, so the inner two-argument
`getattr` runs (and can raise `AttributeError`) before the outer lookup is
consulted, even when `TLS_METHOD` is present. -/
def probeMethod (lib : SSLSymbols) : Except PyError Nat :=
  match getattrStrict lib.SSLv23_METHOD with
  | .error e => .error e
  | .ok fallback => .ok (lib.TLS_METHOD.getD fallback)

/-- `ScrapyClientContextFactory.__init__(method, tls_verbose_logging,
tls_ciphers)`.  When `method is None` the capability probe chooses the
OpenSSL method; otherwise the given method is used verbatim.  (The
`method_is_overridden` deprecation warning concerns subclass reflection
only and does not change the constructed state, so it is not modelled.) -/
def ScrapyClientContextFactory.init (lib : SSLSymbols) (method : Option Nat)
    (tls_verbose_logging : Bool := false) (tls_ciphers : Option String := none) :
    Except PyError ScrapyClientContextFactory :=
  match (match method with | none => probeMethod lib | some m => .ok m) with
  | .error e => .error e
  | .ok m =>
      .ok { ssl_method := m
            tls_verbose_logging := tls_verbose_logging
            tls_ciphers := resolveCiphers tls_ciphers }

/-- Settings consumed by `ScrapyClientContextFactory.from_crawler`: the
results of `crawler.settings.getbool("DOWNLOADER_CLIENT_TLS_VERBOSE_LOGGING")`
and `crawler.settings["DOWNLOADER_CLIENT_TLS_CIPHERS"]`. -/
structure CrawlerTLSSettings where
  tls_verbose_logging : Bool
  tls_ciphers : Option String
  deriving Repr, DecidableEq

/-- `ScrapyClientContextFactory.from_crawler(crawler, method=SSL.SSLv23_METHOD)`.
The `method` parameter has the default `SSL.SSLv23_METHOD`, a plain
attribute access: the class definition itself needs the symbol, so the
embedding takes the witness `v23` that `SSLv23_METHOD` is present.  A
caller passing `none` for `method` means the Python caller omitted the
argument and the default applies; in either case `__init__` receives an
explicit (non-`None`) method. -/
def ScrapyClientContextFactory.from_crawler (lib : SSLSymbols) (v23 : Nat)
    (settings : CrawlerTLSSettings) (method : Option Nat) :
    Except PyError ScrapyClientContextFactory :=
  ScrapyClientContextFactory.init lib (some (method.getD v23))
    settings.tls_verbose_logging settings.tls_ciphers

/-- `twisted.internet.ssl.CertificateOptions(...)` as the module constructs
it: only the four keyword arguments the code passes are modelled. -/
structure CertificateOptions where
  verify : Bool
  method : Nat
  fixBrokenPeers : Bool
  acceptableCiphers : AcceptableCiphers
  deriving Repr, DecidableEq

/-- `ScrapyClientContextFactory.getCertificateOptions`. -/
def ScrapyClientContextFactory.getCertificateOptions
    (f : ScrapyClientContextFactory) : CertificateOptions :=
  { verify := false
    method := f.ssl_method
    fixBrokenPeers := true
    acceptableCiphers := f.tls_ciphers }

/-- An `OpenSSL.SSL.Context` as this module observes it: the certificate
options it was derived from, the option bits accumulated through
`set_options` (OpenSSL ORs new bits into the existing ones), and the
acceptable-protocol list installed by twisted's
`_setAcceptableProtocols` (`none` until it is set). -/
structure SSLContext where
  options : CertificateOptions
  setOptions : Nat
  acceptableProtocols : Option (List (List Nat))
  deriving Repr, DecidableEq

/-- `CertificateOptions.getContext()`: a fresh context derived from the
options, with no extra option bits set and no protocol list installed. -/
def CertificateOptions.getContext (o : CertificateOptions) : SSLContext :=
  { options := o, setOptions := 0, acceptableProtocols := none }

/-- `ctx.set_options(bits)`: OpenSSL ORs the bits into the context. -/
def SSLContext.set_options (ctx : SSLContext) (bits : Nat) : SSLContext :=
  { ctx with setOptions := ctx.setOptions ||| bits }

/-- `getattr(SSL, "OP_NO_TLSv1", 0)` in `getContext`. -/
def opNoTLSv1 (lib : SSLSymbols) : Nat := lib.OP_NO_TLSv1.getD 0

/-- `getattr(SSL, "OP_NO_TLSv1_1", 0)` in `getContext`. -/
def opNoTLSv1_1 (lib : SSLSymbols) : Nat := lib.OP_NO_TLSv1_1.getD 0

/-- `getattr(SSL, "OP_NO_SSLv2", 0)` in `getContext`. -/
def opNoSSLv2 (lib : SSLSymbols) : Nat := lib.OP_NO_SSLv2.getD 0

/-- `getattr(SSL, "OP_NO_SSLv3", 0)` in `getContext`. -/
def opNoSSLv3 (lib : SSLSymbols) : Nat := lib.OP_NO_SSLv3.getD 0

/-- `getattr(SSL, "OP_LEGACY_SERVER_CONNECT", 0x4)` in `getContext`: the
fallback for the legacy-server-connect bit is `0x4`, not `0`. -/
def opLegacyServerConnect (lib : SSLSymbols) : Nat :=
  lib.OP_LEGACY_SERVER_CONNECT.getD 4

/-- `disable_flags = op_no_tlsv1 | op_no_tlsv1_1 | op_no_sslv2 | op_no_sslv3`
in `getContext`. -/
def disableFlags (lib : SSLSymbols) : Nat :=
  opNoTLSv1 lib ||| opNoTLSv1_1 lib ||| opNoSSLv2 lib ||| opNoSSLv3 lib

/-- The spec-side reading of the disable flags: the values of exactly those
disable-protocol symbols that the local library exposes. -/
def availableDisableBits (lib : SSLSymbols) : List Nat :=
  [lib.OP_NO_TLSv1, lib.OP_NO_TLSv1_1, lib.OP_NO_SSLv2, lib.OP_NO_SSLv3].filterMap id

/-- Bitwise OR of a list of flag values. -/
def orAll (l : List Nat) : Nat := l.foldr (fun a b => a ||| b) 0

/-- `ScrapyClientContextFactory.getContext(hostname=None, port=None)`: build
a context from the certificate options, then OR the legacy-server-connect
bit with the protocol-disable flags onto it.  The two arguments are
accepted and ignored, exactly as in the source.  State-passing
translation: the method body contains no assignment to `self`, so the
returned factory state is the incoming one. -/
def ScrapyClientContextFactory.getContext (f : ScrapyClientContextFactory)
    (lib : SSLSymbols) (hostname port : Option Nat) :
    ScrapyClientContextFactory × SSLContext :=
  let _ := hostname
  let _ := port
  let ctx := f.getCertificateOptions.getContext
  let ctx := ctx.set_options (opLegacyServerConnect lib ||| disableFlags lib)
  (f, ctx)

/-- `bytes.decode("ascii")`: succeeds iff every byte is below 128, and
raises `UnicodeDecodeError` otherwise.  Hostnames are byte strings. -/
def asciiDecode (b : List Nat) : Except PyError String :=
  if b.all (· < 128) then .ok ⟨b.map Char.ofNat⟩
  else .error .unicodeDecodeError

/-- Modelled from the spec: `ScrapyClientTLSOptions` lives in
`scrapy/core/downloader/tls.py`, which is not part of the supplied
sources.  The spec describes the per-connection TLS config as carrying the
(ASCII-decoded) hostname, the handshake context and the verbose-logging
flag.  `objId` is the embedding's allocation identity: every construction
of a config object consumes a fresh identifier, so two configs built by
distinct constructor calls have distinct `objId`s (no shared object). -/
structure ScrapyClientTLSOptions where
  objId : Nat
  hostname : String
  ctx : SSLContext
  verbose_logging : Bool
  deriving Repr, DecidableEq

/-- `ScrapyClientContextFactory.creatorForNetloc(hostname, port)` as a
state-passing translation: the factory is threaded through (Python methods
may assign to `self`; this body does not, and the translation records
that), and `fresh` is the next free allocation identifier.  Returns the
factory state after the call, the result (a fresh
`ScrapyClientTLSOptions` or the decoding error), and the next free
identifier.  The `port` argument is unused by the body. -/
def ScrapyClientContextFactory.creatorForNetloc (f : ScrapyClientContextFactory)
    (lib : SSLSymbols) (hostname : List Nat) (port : Nat) (fresh : Nat) :
    ScrapyClientContextFactory × Except PyError ScrapyClientTLSOptions × Nat :=
  let _ := port
  match asciiDecode hostname with
  | .error e => (f, .error e, fresh)
  | .ok h =>
      match f.getContext lib none none with
      | (f', ctx) =>
          (f', .ok { objId := fresh
                     hostname := h
                     ctx := ctx
                     verbose_logging := f'.tls_verbose_logging }, fresh + 1)

/-- A candidate inner factory handed to
`AcceptableProtocolsContextFactory`: whether it provides the
`IPolicyForHTTPS` interface (what `zope.interface.verify.verifyObject`
checks), and its `creatorForNetloc` behaviour as a function from hostname
bytes, port and a fresh allocation identifier to a per-connection config
and the next free identifier. -/
structure CandidateFactory where
  providesIPolicyForHTTPS : Bool
  creator : List Nat → Nat → Nat → Except PyError ScrapyClientTLSOptions × Nat

/-- The state of an `AcceptableProtocolsContextFactory`: the wrapped inner
factory and the configured acceptable-protocol list (protocols are byte
strings). -/
structure AcceptableProtocolsContextFactory where
  wrapped_context_factory : CandidateFactory
  acceptable_protocols : List (List Nat)

/-- `twisted.internet._sslverify._setAcceptableProtocols(ctx, protocols)`:
installs the ALPN/NPN protocol list on the low-level context. -/
def setAcceptableProtocols (ctx : SSLContext) (protocols : List (List Nat)) :
    SSLContext :=
  { ctx with acceptableProtocols := some protocols }

/-- `AcceptableProtocolsContextFactory.__init__(context_factory,
acceptable_protocols)`: `verifyObject(IPolicyForHTTPS, context_factory)`
raises unless the candidate provides the interface; on success both
arguments are stored unchanged. -/
def AcceptableProtocolsContextFactory.init (context_factory : CandidateFactory)
    (acceptable_protocols : List (List Nat)) :
    Except PyError AcceptableProtocolsContextFactory :=
  if context_factory.providesIPolicyForHTTPS then
    .ok { wrapped_context_factory := context_factory
          acceptable_protocols := acceptable_protocols }
  else .error .doesNotImplement

/-- `AcceptableProtocolsContextFactory.creatorForNetloc(hostname, port)`:
delegate to the wrapped factory, then install the wrapper's protocol list
on the returned config's low-level context (`options._ctx`). -/
def AcceptableProtocolsContextFactory.creatorForNetloc
    (w : AcceptableProtocolsContextFactory) (hostname : List Nat) (port : Nat)
    (fresh : Nat) : Except PyError ScrapyClientTLSOptions × Nat :=
  match w.wrapped_context_factory.creator hostname port fresh with
  | (.error e, fresh') => (.error e, fresh')
  | (.ok options, fresh') =>
      (.ok { options with ctx := setAcceptableProtocols options.ctx
                            w.acceptable_protocols }, fresh')

/-- Errors out of `load_context_factory_from_settings`'s construction
attempts.  A missing-`method`-parameter failure is a `TypeError` in
Python; so are `TypeError`s raised for any other reason, including from
inside a constructor body that does accept `method`. -/
inductive BuildError where
  /-- `TypeError` because the constructor does not accept `method`. -/
  | signatureMismatchMethod
  /-- A `TypeError` raised for any other reason during construction. -/
  | otherTypeError
  /-- Any non-`TypeError` exception raised during construction. -/
  | otherException
  deriving Repr, DecidableEq

/-- `except TypeError` matches exactly the `TypeError`-classed failures. -/
def BuildError.isTypeError : BuildError → Bool
  | .signatureMismatchMethod => true
  | .otherTypeError => true
  | .otherException => false

/-- The behaviour of a loaded context-factory class under
`build_from_crawler`: the outcome of the method-aware attempt
(`build_from_crawler(cls, crawler, method=ssl_method)`, as a function of
the method value) and the outcome of the no-extra-argument attempt
(`build_from_crawler(cls, crawler)`).  `build_from_crawler` itself lives
outside the supplied sources; the resolver only observes these two
outcomes. -/
structure FactoryClassBehavior (α : Type) where
  buildWithMethod : Nat → Except BuildError α
  buildDefault : Except BuildError α

/-- Errors out of `load_context_factory_from_settings`. -/
inductive ResolveError where
  /-- Modelled from the spec: the `KeyError` from `openssl_methods[...]`,
  which the spec names `UnknownTLSMethod`. -/
  | unknownTLSMethod
  /-- A construction failure that propagates to the caller. -/
  | construction (e : BuildError)
  deriving Repr, DecidableEq

/-- Modelled from the spec: `openssl_methods` lives in
`scrapy/core/downloader/tls.py`, which is not part of the supplied
sources.  The spec describes it as a static name-to-method mapping; the
embedding quantifies over the table.  `settings.get(...)` yields `none`
when the key is unset, and indexing the mapping with an absent key (or
`None`) raises `KeyError`. -/
def lookupOpensslMethod (table : List (String × Nat)) (name : Option String) :
    Except ResolveError Nat :=
  match name with
  | none => .error .unknownTLSMethod
  | some n =>
      match table.find? (fun p => p.1 == n) with
      | some p => .ok p.2
      | none => .error .unknownTLSMethod

/-- The compatibility warning emitted on the fallback path, abstracted to
the list of constructor parameters its message names. -/
def fallbackWarningParams : List String :=
  ["method", "tls_verbose_logging", "tls_ciphers"]

/-- `load_context_factory_from_settings(settings, crawler)`: look the
configured method name up in `openssl_methods`, load the factory class
(class loading is external and represented by the class's behaviour),
attempt method-aware construction, and on a `TypeError` retry with no
extra arguments, emitting the compatibility warning after a successful
retry.  Returns the factory together with the recorded warning (`none`
when no warning was emitted). -/
def load_context_factory_from_settings {α : Type}
    (table : List (String × Nat)) (methodName : Option String)
    (cls : FactoryClassBehavior α) :
    Except ResolveError (α × Option (List String)) :=
  match lookupOpensslMethod table methodName with
  | .error e => .error e
  | .ok ssl_method =>
      match cls.buildWithMethod ssl_method with
      | .ok context_factory => .ok (context_factory, none)
      | .error e =>
          if e.isTypeError then
            match cls.buildDefault with
            | .ok context_factory => .ok (context_factory, some fallbackWarningParams)
            | .error e2 => .error (.construction e2)
          else .error (.construction e)

/-! ## Concrete fixtures -/

/-- A library symbol set used as a concrete counterexample: it exposes the
modern `TLS_METHOD` and the four disable flags but not `SSLv23_METHOD`. -/
def exLibC1 : SSLSymbols :=
  { TLS_METHOD := some 7
    SSLv23_METHOD := none
    OP_NO_TLSv1 := some 67108864
    OP_NO_TLSv1_1 := some 268435456
    OP_NO_SSLv2 := some 16777216
    OP_NO_SSLv3 := some 33554432
    OP_LEGACY_SERVER_CONNECT := some 4 }

/-- A library symbol set exposing every probed symbol. -/
def fullLib : SSLSymbols :=
  { TLS_METHOD := some 7
    SSLv23_METHOD := some 2
    OP_NO_TLSv1 := some 67108864
    OP_NO_TLSv1_1 := some 268435456
    OP_NO_SSLv2 := some 16777216
    OP_NO_SSLv3 := some 33554432
    OP_LEGACY_SERVER_CONNECT := some 4 }

/-- Certificate options for a concrete per-connection fixture. -/
def certOpts0 : CertificateOptions :=
  { verify := false, method := 2, fixBrokenPeers := true,
    acceptableCiphers := .defaultBundle }

/-- A handshake context whose inner factory pre-set some protocol list. -/
def ctx0 : SSLContext :=
  { options := certOpts0, setOptions := 0, acceptableProtocols := some [[1]] }

/-- A concrete inner factory that provides `IPolicyForHTTPS` and returns a
fresh config (with `ctx0`) on every call. -/
def innerFactory0 : CandidateFactory :=
  { providesIPolicyForHTTPS := true
    creator := fun _ _ fresh =>
      (.ok { objId := fresh, hostname := "x", ctx := ctx0,
             verbose_logging := false }, fresh + 1) }

/-- A concrete candidate that does not provide `IPolicyForHTTPS`. -/
def badFactory0 : CandidateFactory :=
  { providesIPolicyForHTTPS := false
    creator := fun _ _ fresh => (.error .doesNotImplement, fresh) }

/-- The ALPN protocol list [b"h2", b"http/1.1"] as byte strings. -/
def alpnH2H1 : List (List Nat) :=
  [[104, 50], [104, 116, 116, 112, 47, 49, 46, 49]]

/-- A loaded class whose method-aware construction raises a `TypeError`
from inside a constructor that does accept `method` (not a signature
mismatch), and whose no-argument construction succeeds. -/
def clsBodyTypeError : FactoryClassBehavior Nat :=
  { buildWithMethod := fun _ => .error .otherTypeError
    buildDefault := .ok 0 }

/-- A loaded class whose method-aware construction fails with a
non-`TypeError` exception. -/
def clsOtherException : FactoryClassBehavior Nat :=
  { buildWithMethod := fun _ => .error .otherException
    buildDefault := .ok 1 }

/-- A loaded class whose constructor accepts only zero arguments: the
method-aware attempt fails with the signature-mismatch `TypeError`. -/
def clsZeroArg : FactoryClassBehavior Nat :=
  { buildWithMethod := fun _ => .error .signatureMismatchMethod
    buildDefault := .ok 2 }

/-! ## Theorems -/

/-- The disable-flag OR computed by `getContext` via `getattr(..., 0)`
equals the OR over exactly the disable symbols the library exposes. -/
theorem disableFlags_eq_orAll_available (lib : SSLSymbols) :
    disableFlags lib = orAll (availableDisableBits lib) := by
  rcases lib with ⟨t, s, a, b, c, d, e⟩
  cases a <;> cases b <;> cases c <;> cases d <;>
    simp [disableFlags, opNoTLSv1, opNoTLSv1_1, opNoSSLv2, opNoSSLv3,
      availableDisableBits, orAll, Nat.or_assoc]

/-- C1 fails on the code at a concrete symbol set: with
`OP_LEGACY_SERVER_CONNECT` absent the probe substitutes `0x4`, not the
claimed `0`; and with `SSLv23_METHOD` absent, construction with `method`
omitted raises `AttributeError` even though the modern `TLS_METHOD` is
present (Python evaluates `getattr`'s default eagerly), instead of
selecting `TLS_METHOD`. -/
theorem C1_capability_probe_counterexample :
    ({ exLibC1 with OP_LEGACY_SERVER_CONNECT := none } : SSLSymbols).OP_LEGACY_SERVER_CONNECT
        = none ∧
    opLegacyServerConnect { exLibC1 with OP_LEGACY_SERVER_CONNECT := none } = 4 ∧
    (4 : Nat) ≠ 0 ∧
    exLibC1.TLS_METHOD = some 7 ∧
    ScrapyClientContextFactory.init exLibC1 none false none = .error .attributeError :=
  ⟨rfl, rfl, by decide, rfl, rfl⟩

/-- C1 (amended).  Capability probe: with `method` omitted, when
`SSLv23_METHOD` is exposed, construction succeeds and selects `TLS_METHOD`
when present, otherwise the `SSLv23_METHOD` value; when `SSLv23_METHOD` is
absent, construction raises `AttributeError` (Python evaluates the inner
`getattr` eagerly).  Each absent disable-flag symbol is substituted by the
no-op value `0`; the absent legacy-server-connect compatibility bit is
substituted by `0x4`, not `0`.  The flag probes are total: flag absence
never raises. -/
theorem C1_capability_probe (lib : SSLSymbols) (vb : Bool) (tc : Option String) :
    (∀ v23, lib.SSLv23_METHOD = some v23 →
      ∃ f, ScrapyClientContextFactory.init lib none vb tc = .ok f ∧
        f.ssl_method = lib.TLS_METHOD.getD v23) ∧
    (lib.SSLv23_METHOD = none →
      ScrapyClientContextFactory.init lib none vb tc = .error .attributeError) ∧
    (lib.OP_NO_TLSv1 = none → opNoTLSv1 lib = 0) ∧
    (lib.OP_NO_TLSv1_1 = none → opNoTLSv1_1 lib = 0) ∧
    (lib.OP_NO_SSLv2 = none → opNoSSLv2 lib = 0) ∧
    (lib.OP_NO_SSLv3 = none → opNoSSLv3 lib = 0) ∧
    (lib.OP_LEGACY_SERVER_CONNECT = none → opLegacyServerConnect lib = 4) := by
  refine ⟨?_, ?_, ?_, ?_, ?_, ?_, ?_⟩
  · intro v23 h
    refine ⟨{ ssl_method := lib.TLS_METHOD.getD v23, tls_verbose_logging := vb,
              tls_ciphers := resolveCiphers tc }, ?_, rfl⟩
    simp [ScrapyClientContextFactory.init, probeMethod, getattrStrict, h]
  · intro h
    simp [ScrapyClientContextFactory.init, probeMethod, getattrStrict, h]
  · intro h; simp [opNoTLSv1, h]
  · intro h; simp [opNoTLSv1_1, h]
  · intro h; simp [opNoSSLv2, h]
  · intro h; simp [opNoSSLv3, h]
  · intro h; simp [opLegacyServerConnect, h]

/-- C1 witness: on a library exposing both methods, construction with
`method` omitted selects the modern `TLS_METHOD` value `7`. -/
theorem C1_capability_probe_witness :
    ∃ f, ScrapyClientContextFactory.init fullLib none false none = .ok f ∧
      f.ssl_method = 7 :=
  (C1_capability_probe fullLib false none).1 2 rfl

/-- C5 (confirmed).  Legacy context flag application: for every factory
instance and every optional hostname/port arguments, `getContext` builds
the handshake context from the instance's certificate options (no extra
option bits, no protocol list) and then applies to it exactly the OR of
the legacy-server-connect compatibility bit with the OR of all available
disable-SSLv2, disable-SSLv3, disable-TLSv1 and disable-TLSv1.1 bits. -/
theorem C5_legacy_context_flags (f : ScrapyClientContextFactory)
    (lib : SSLSymbols) (hostname port : Option Nat) :
    (f.getContext lib hostname port).2.options = f.getCertificateOptions ∧
    (f.getContext lib hostname port).2.setOptions =
      opLegacyServerConnect lib ||| orAll (availableDisableBits lib) ∧
    (f.getContext lib hostname port).2.acceptableProtocols = none := by
  refine ⟨rfl, ?_, rfl⟩
  simp [ScrapyClientContextFactory.getContext, SSLContext.set_options,
    CertificateOptions.getContext, disableFlags_eq_orAll_available]

/-- Successful construction records the given verbose flag and the
resolved cipher policy. -/
theorem init_ok_state (lib : SSLSymbols) (method : Option Nat) (vb : Bool)
    (tc : Option String) (f : ScrapyClientContextFactory)
    (h : ScrapyClientContextFactory.init lib method vb tc = .ok f) :
    f.tls_verbose_logging = vb ∧ f.tls_ciphers = resolveCiphers tc := by
  rcases method with _ | m
  · cases hp : probeMethod lib with
    | error e => simp [ScrapyClientContextFactory.init, hp] at h
    | ok m =>
      simp [ScrapyClientContextFactory.init, hp] at h
      subst h
      exact ⟨rfl, rfl⟩
  · simp [ScrapyClientContextFactory.init] at h
    subst h
    exact ⟨rfl, rfl⟩

/-- C3 (confirmed).  Certificate-options builder postcondition: for every
constructed factory, `getCertificateOptions` disables verification,
enables `fixBrokenPeers`, carries the instance's resolved method, and its
cipher policy is the exact parse of the supplied cipher string when that
string is non-empty and the process default bundle otherwise. -/
theorem C3_certificate_options (lib : SSLSymbols) (method : Option Nat)
    (vb : Bool) (tc : Option String) (f : ScrapyClientContextFactory)
    (h : ScrapyClientContextFactory.init lib method vb tc = .ok f) :
    f.getCertificateOptions.verify = false ∧
    f.getCertificateOptions.fixBrokenPeers = true ∧
    f.getCertificateOptions.method = f.ssl_method ∧
    (∀ s, tc = some s → s ≠ "" →
      f.getCertificateOptions.acceptableCiphers = .fromOpenSSLCipherString s) ∧
    ((tc = none ∨ tc = some "") →
      f.getCertificateOptions.acceptableCiphers = DEFAULT_CIPHERS) := by
  obtain ⟨-, hc⟩ := init_ok_state lib method vb tc f h
  refine ⟨rfl, rfl, rfl, ?_, ?_⟩
  · intro s hs hne
    simp [ScrapyClientContextFactory.getCertificateOptions, hc, hs,
      resolveCiphers, hne]
  · rintro (hn | hn) <;>
      simp [ScrapyClientContextFactory.getCertificateOptions, hc, hn,
        resolveCiphers]

/-- C3 witness: constructing with method `1` and cipher string `"ECDHE"`
gives options with verification off, `fixBrokenPeers` on, the instance's
method, and the parsed cipher string. -/
theorem C3_certificate_options_witness :
    ({ ssl_method := 1, tls_verbose_logging := false,
       tls_ciphers := .fromOpenSSLCipherString "ECDHE" } :
        ScrapyClientContextFactory).getCertificateOptions.verify = false ∧
    ({ ssl_method := 1, tls_verbose_logging := false,
       tls_ciphers := .fromOpenSSLCipherString "ECDHE" } :
        ScrapyClientContextFactory).getCertificateOptions.fixBrokenPeers = true ∧
    ({ ssl_method := 1, tls_verbose_logging := false,
       tls_ciphers := .fromOpenSSLCipherString "ECDHE" } :
        ScrapyClientContextFactory).getCertificateOptions.acceptableCiphers =
      .fromOpenSSLCipherString "ECDHE" := by
  obtain ⟨h1, h2, -, h4, -⟩ :=
    C3_certificate_options fullLib (some 1) false (some "ECDHE")
      { ssl_method := 1, tls_verbose_logging := false,
        tls_ciphers := .fromOpenSSLCipherString "ECDHE" } rfl
  exact ⟨h1, h2, h4 "ECDHE" rfl (by decide)⟩

/-- C6 (confirmed).  Base `creatorForNetloc` contract: for an ASCII
hostname byte string, the call returns a per-connection TLS config
carrying the decoded hostname, the handshake context built via the legacy
`getContext` path, and the instance's verbose-logging flag; for a
non-ASCII hostname it fails with the decoding error. -/
theorem C6_creatorForNetloc_contract (f : ScrapyClientContextFactory)
    (lib : SSLSymbols) (hostname : List Nat) (port fresh : Nat) :
    ((∀ b ∈ hostname, b < 128) →
      (f.creatorForNetloc lib hostname port fresh).2.1 =
        .ok { objId := fresh
              hostname := ⟨hostname.map Char.ofNat⟩
              ctx := (f.getContext lib none none).2
              verbose_logging := f.tls_verbose_logging }) ∧
    ((∃ b ∈ hostname, ¬ b < 128) →
      (f.creatorForNetloc lib hostname port fresh).2.1 =
        .error .unicodeDecodeError) := by
  constructor
  · intro h
    have hall : (hostname.all fun b => decide (b < 128)) = true := by
      simp only [List.all_eq_true, decide_eq_true_eq]
      exact h
    simp [ScrapyClientContextFactory.creatorForNetloc, asciiDecode, hall,
      ScrapyClientContextFactory.getContext]
  · intro h
    have hall : (hostname.all fun b => decide (b < 128)) = false := by
      rcases h with ⟨b, hb, hlt⟩
      simp only [List.all_eq_false]
      exact ⟨b, hb, by simpa using hlt⟩
    simp [ScrapyClientContextFactory.creatorForNetloc, asciiDecode, hall]

/-- C6 witness: hostname bytes `[104, 105]` ("hi") are ASCII, and the call
yields the decoded hostname with the legacy-path context and the
instance's verbose flag. -/
theorem C6_creatorForNetloc_contract_witness :
    (({ ssl_method := 1, tls_verbose_logging := false,
        tls_ciphers := .fromOpenSSLCipherString "ECDHE" } :
          ScrapyClientContextFactory).creatorForNetloc fullLib
        [104, 105] 443 0).2.1 =
      .ok { objId := 0
            hostname := ⟨[104, 105].map Char.ofNat⟩
            ctx := (({ ssl_method := 1, tls_verbose_logging := false,
                       tls_ciphers := .fromOpenSSLCipherString "ECDHE" } :
                        ScrapyClientContextFactory).getContext fullLib none none).2
            verbose_logging := false } :=
  (C6_creatorForNetloc_contract
    { ssl_method := 1, tls_verbose_logging := false,
      tls_ciphers := .fromOpenSSLCipherString "ECDHE" }
    fullLib [104, 105] 443 0).1 (by decide)

/-- C9 (confirmed).  Read-only factory and fresh per-connection configs:
`getContext` and `creatorForNetloc` return the factory state unchanged,
and two successive `creatorForNetloc` calls with the same hostname and
port allocate configs with distinct object identities. -/
theorem C9_read_only_and_fresh (f : ScrapyClientContextFactory)
    (lib : SSLSymbols) (hostname : List Nat) (port fresh : Nat)
    (hp pp : Option Nat) :
    (f.getContext lib hp pp).1 = f ∧
    (f.creatorForNetloc lib hostname port fresh).1 = f ∧
    (∀ o1 o2,
      (f.creatorForNetloc lib hostname port fresh).2.1 = .ok o1 →
      ((f.creatorForNetloc lib hostname port fresh).1.creatorForNetloc lib
          hostname port (f.creatorForNetloc lib hostname port fresh).2.2).2.1 =
        .ok o2 →
      o1.objId ≠ o2.objId) := by
  refine ⟨rfl, ?_, ?_⟩
  · cases hd : asciiDecode hostname <;>
      simp [ScrapyClientContextFactory.creatorForNetloc, hd,
        ScrapyClientContextFactory.getContext]
  · intro o1 o2 h1 h2
    cases hd : asciiDecode hostname with
    | error e =>
        simp [ScrapyClientContextFactory.creatorForNetloc, hd] at h1
    | ok s =>
        simp [ScrapyClientContextFactory.creatorForNetloc, hd,
          ScrapyClientContextFactory.getContext] at h1 h2
        rw [← h1, ← h2]
        simp

/-- C9 witness: two calls on hostname `[97]` ("a") starting from
allocation id `0` leave the factory unchanged and return configs with the
distinct identities `0` and `1`. -/
theorem C9_read_only_and_fresh_witness :
    (({ ssl_method := 1, tls_verbose_logging := false,
        tls_ciphers := .fromOpenSSLCipherString "ECDHE" } :
          ScrapyClientContextFactory).creatorForNetloc fullLib [97] 443 0).1 =
      { ssl_method := 1, tls_verbose_logging := false,
        tls_ciphers := .fromOpenSSLCipherString "ECDHE" } ∧
    ({ objId := 0, hostname := ⟨[97].map Char.ofNat⟩,
       ctx := (({ ssl_method := 1, tls_verbose_logging := false,
                  tls_ciphers := .fromOpenSSLCipherString "ECDHE" } :
                   ScrapyClientContextFactory).getContext fullLib none none).2,
       verbose_logging := false } : ScrapyClientTLSOptions).objId ≠
    ({ objId := 1, hostname := ⟨[97].map Char.ofNat⟩,
       ctx := (({ ssl_method := 1, tls_verbose_logging := false,
                  tls_ciphers := .fromOpenSSLCipherString "ECDHE" } :
                   ScrapyClientContextFactory).getContext fullLib none none).2,
       verbose_logging := false } : ScrapyClientTLSOptions).objId := by
  refine ⟨(C9_read_only_and_fresh
    { ssl_method := 1, tls_verbose_logging := false,
      tls_ciphers := .fromOpenSSLCipherString "ECDHE" }
    fullLib [97] 443 0 none none).2.1, ?_⟩
  exact (C9_read_only_and_fresh
    { ssl_method := 1, tls_verbose_logging := false,
      tls_ciphers := .fromOpenSSLCipherString "ECDHE" }
    fullLib [97] 443 0 none none).2.2 _ _ rfl rfl

/-- C10 (confirmed).  `from_crawler` always passes an explicit method to
the constructor — the given one, or its `SSLv23_METHOD` default — so the
capability probe (the `TLS_METHOD` preference) is never consulted on this
path: the outcome is independent of the library's symbol set, and the
resulting method is exactly the explicit one. -/
theorem C10_from_crawler_explicit_method (lib : SSLSymbols) (v23 : Nat)
    (settings : CrawlerTLSSettings) (method : Option Nat)
    (h : lib.SSLv23_METHOD = some v23) :
    (ScrapyClientContextFactory.from_crawler lib v23 settings method =
      ScrapyClientContextFactory.init lib (some (method.getD v23))
        settings.tls_verbose_logging settings.tls_ciphers) ∧
    (∃ f, ScrapyClientContextFactory.from_crawler lib v23 settings method =
        .ok f ∧ f.ssl_method = method.getD v23) ∧
    (∀ lib' : SSLSymbols,
      ScrapyClientContextFactory.from_crawler lib v23 settings method =
        ScrapyClientContextFactory.from_crawler lib' v23 settings method) := by
  refine ⟨rfl, ?_, fun lib' => rfl⟩
  exact ⟨{ ssl_method := method.getD v23,
           tls_verbose_logging := settings.tls_verbose_logging,
           tls_ciphers := resolveCiphers settings.tls_ciphers }, rfl, rfl⟩

/-- C10 witness: with the method argument omitted, `from_crawler` on a
full library constructs a factory whose method is the `SSLv23_METHOD`
default `2`, not the modern `TLS_METHOD` value `7`. -/
theorem C10_from_crawler_explicit_method_witness :
    ∃ f, ScrapyClientContextFactory.from_crawler fullLib 2
        { tls_verbose_logging := false, tls_ciphers := none } none = .ok f ∧
      f.ssl_method = 2 :=
  (C10_from_crawler_explicit_method fullLib 2
    { tls_verbose_logging := false, tls_ciphers := none } none rfl).2.1

/-- C2 fails on the code at a concrete class: `clsBodyTypeError`'s
method-aware construction fails with a `TypeError` that is not the
missing-`method` signature mismatch, yet the resolver retries, succeeds
and records the warning instead of propagating the failure. -/
theorem C2_resolver_error_discipline_counterexample :
    clsBodyTypeError.buildWithMethod 5 = .error .otherTypeError ∧
    BuildError.otherTypeError ≠ .signatureMismatchMethod ∧
    load_context_factory_from_settings [("TLS", 5)] (some "TLS")
      clsBodyTypeError = .ok (0, some fallbackWarningParams) :=
  ⟨rfl, by decide, rfl⟩

/-- C2 (amended).  Resolver error discipline: the resolver retries with no
extra arguments exactly when the first construction attempt fails with a
`TypeError` — whether or not that `TypeError` is the missing-`method`
signature mismatch — and records the compatibility warning (naming
`method`, `tls_verbose_logging`, `tls_ciphers`) exactly when that retry
succeeds; a non-`TypeError` failure of the first attempt, and any failure
of the retry, propagate to the caller unmodified. -/
theorem C2_resolver_error_discipline {α : Type} (table : List (String × Nat))
    (methodName : Option String) (cls : FactoryClassBehavior α) (m : Nat)
    (hm : lookupOpensslMethod table methodName = .ok m) :
    (∀ f, cls.buildWithMethod m = .ok f →
      load_context_factory_from_settings table methodName cls = .ok (f, none)) ∧
    (∀ e, cls.buildWithMethod m = .error e → e.isTypeError = false →
      load_context_factory_from_settings table methodName cls =
        .error (.construction e)) ∧
    (∀ e f, cls.buildWithMethod m = .error e → e.isTypeError = true →
      cls.buildDefault = .ok f →
      load_context_factory_from_settings table methodName cls =
        .ok (f, some fallbackWarningParams)) ∧
    (∀ e e2, cls.buildWithMethod m = .error e → e.isTypeError = true →
      cls.buildDefault = .error e2 →
      load_context_factory_from_settings table methodName cls =
        .error (.construction e2)) ∧
    (∀ f w,
      load_context_factory_from_settings table methodName cls = .ok (f, some w) →
      w = fallbackWarningParams ∧
      ∃ e, cls.buildWithMethod m = .error e ∧ e.isTypeError = true ∧
        cls.buildDefault = .ok f) := by
  refine ⟨?_, ?_, ?_, ?_, ?_⟩
  · intro f hf
    simp [load_context_factory_from_settings, hm, hf]
  · intro e he hne
    simp [load_context_factory_from_settings, hm, he, hne]
  · intro e f he ht hd
    simp [load_context_factory_from_settings, hm, he, ht, hd]
  · intro e e2 he ht hd
    simp [load_context_factory_from_settings, hm, he, ht, hd]
  · intro f w hres
    cases hb : cls.buildWithMethod m with
    | ok f' =>
        simp [load_context_factory_from_settings, hm, hb] at hres
    | error e =>
        cases ht : e.isTypeError with
        | false =>
            simp [load_context_factory_from_settings, hm, hb, ht] at hres
        | true =>
            cases hd : cls.buildDefault with
            | error e2 =>
                simp [load_context_factory_from_settings, hm, hb, ht, hd] at hres
            | ok f' =>
                simp [load_context_factory_from_settings, hm, hb, ht, hd] at hres
                exact ⟨hres.2.symm, e, rfl, ht, congrArg Except.ok hres.1⟩

/-- C2 witness: a zero-argument-only class makes the resolver fall back
with the three-parameter warning, and a non-`TypeError` failure
propagates unmodified. -/
theorem C2_resolver_error_discipline_witness :
    load_context_factory_from_settings [("TLS", 3)] (some "TLS") clsZeroArg =
      .ok (2, some fallbackWarningParams) ∧
    load_context_factory_from_settings [("TLS", 3)] (some "TLS")
      clsOtherException = .error (.construction .otherException) :=
  ⟨(C2_resolver_error_discipline [("TLS", 3)] (some "TLS") clsZeroArg 3
      rfl).2.2.1 .signatureMismatchMethod 2 rfl rfl rfl,
   (C2_resolver_error_discipline [("TLS", 3)] (some "TLS") clsOtherException 3
      rfl).2.1 .otherException rfl rfl⟩

/-- C7 (confirmed).  Resolver method lookup: when the configured name is
present in the static name-to-method mapping, resolution never fails with
the unknown-method error; when it is absent, resolution always fails with
the unknown-method error and the loaded class is never consulted (the
outcome is the same for every class behaviour). -/
theorem C7_resolver_method_lookup {α : Type} (table : List (String × Nat))
    (n : String) (cls cls' : FactoryClassBehavior α) :
    ((table.find? (fun p => p.1 == n)).isSome →
      load_context_factory_from_settings table (some n) cls ≠
        .error .unknownTLSMethod) ∧
    (table.find? (fun p => p.1 == n) = none →
      load_context_factory_from_settings table (some n) cls =
        .error .unknownTLSMethod ∧
      load_context_factory_from_settings table (some n) cls =
        load_context_factory_from_settings table (some n) cls') := by
  constructor
  · intro hs
    obtain ⟨p, hp⟩ := Option.isSome_iff_exists.1 hs
    have hm : lookupOpensslMethod table (some n) = .ok p.2 := by
      simp [lookupOpensslMethod, hp]
    intro hcontra
    cases hb : cls.buildWithMethod p.2 with
    | ok f =>
        simp [load_context_factory_from_settings, hm, hb] at hcontra
    | error e =>
        cases ht : e.isTypeError with
        | false =>
            simp [load_context_factory_from_settings, hm, hb, ht] at hcontra
        | true =>
            cases hd : cls.buildDefault with
            | ok f =>
                simp [load_context_factory_from_settings, hm, hb, ht, hd]
                  at hcontra
            | error e2 =>
                simp [load_context_factory_from_settings, hm, hb, ht, hd]
                  at hcontra
  · intro hn
    have hm : lookupOpensslMethod table (some n) =
        .error .unknownTLSMethod := by
      simp [lookupOpensslMethod, hn]
    exact ⟨by simp [load_context_factory_from_settings, hm],
      by simp [load_context_factory_from_settings, hm]⟩

/-- C7 witness: with the table `[("TLS", 3)]`, the known name `"TLS"`
does not produce the unknown-method error, while the unknown name
`"FOO"` fails with it for two different class behaviours alike. -/
theorem C7_resolver_method_lookup_witness :
    (load_context_factory_from_settings [("TLS", 3)] (some "TLS") clsZeroArg ≠
      .error .unknownTLSMethod) ∧
    load_context_factory_from_settings [("TLS", 3)] (some "FOO") clsZeroArg =
      .error .unknownTLSMethod ∧
    load_context_factory_from_settings [("TLS", 3)] (some "FOO") clsZeroArg =
      load_context_factory_from_settings [("TLS", 3)] (some "FOO")
        clsOtherException :=
  ⟨(C7_resolver_method_lookup [("TLS", 3)] "TLS" clsZeroArg
      clsOtherException).1 rfl,
   (C7_resolver_method_lookup [("TLS", 3)] "FOO" clsZeroArg
      clsOtherException).2 rfl⟩

/-- C4 (confirmed).  Protocol-Negotiation Decorator override: the
wrapper's `creatorForNetloc` delegates to the inner factory and returns
that same per-connection config with its context's acceptable-protocol
list set to exactly the wrapper's configured list — no other field of the
config or its context changes — and an inner failure passes through. -/
theorem C4_protocol_override (cf : CandidateFactory) (protos : List (List Nat))
    (w : AcceptableProtocolsContextFactory)
    (hw : AcceptableProtocolsContextFactory.init cf protos = .ok w)
    (hostname : List Nat) (port fresh : Nat) :
    (∀ o fresh', cf.creator hostname port fresh = (.ok o, fresh') →
      w.creatorForNetloc hostname port fresh =
        (.ok { o with ctx := { o.ctx with acceptableProtocols := some protos } },
          fresh')) ∧
    (∀ e fresh', cf.creator hostname port fresh = (.error e, fresh') →
      w.creatorForNetloc hostname port fresh = (.error e, fresh')) := by
  have hwv : w = { wrapped_context_factory := cf,
                   acceptable_protocols := protos } := by
    cases hp : cf.providesIPolicyForHTTPS with
    | false => simp [AcceptableProtocolsContextFactory.init, hp] at hw
    | true =>
        simp [AcceptableProtocolsContextFactory.init, hp] at hw
        exact hw.symm
  subst hwv
  constructor
  · intro o fresh' ho
    simp [AcceptableProtocolsContextFactory.creatorForNetloc, ho,
      setAcceptableProtocols]
  · intro e fresh' he
    simp [AcceptableProtocolsContextFactory.creatorForNetloc, he]

/-- C4 witness: wrapping `innerFactory0` (which pre-sets the protocol
list `[[1]]`) with [b"h2", b"http/1.1"] yields the inner config with the
protocol list overridden to exactly the wrapper's list. -/
theorem C4_protocol_override_witness :
    AcceptableProtocolsContextFactory.creatorForNetloc
      { wrapped_context_factory := innerFactory0,
        acceptable_protocols := alpnH2H1 } [120] 443 0 =
      (.ok { objId := 0, hostname := "x",
             ctx := { ctx0 with acceptableProtocols := some alpnH2H1 },
             verbose_logging := false }, 1) :=
  (C4_protocol_override innerFactory0 alpnH2H1
    { wrapped_context_factory := innerFactory0,
      acceptable_protocols := alpnH2H1 } rfl [120] 443 0).1
    { objId := 0, hostname := "x", ctx := ctx0, verbose_logging := false }
    1 rfl

/-- C8 (confirmed).  Decorator construction validation: constructing the
wrapper fails with the incompatibility error exactly when the candidate
does not provide the `IPolicyForHTTPS` capability; otherwise construction
succeeds and stores the inner factory and the protocol list unchanged. -/
theorem C8_wrapper_validation (cf : CandidateFactory)
    (protos : List (List Nat)) :
    (cf.providesIPolicyForHTTPS = false →
      AcceptableProtocolsContextFactory.init cf protos =
        .error .doesNotImplement) ∧
    (cf.providesIPolicyForHTTPS = true →
      AcceptableProtocolsContextFactory.init cf protos =
        .ok { wrapped_context_factory := cf,
              acceptable_protocols := protos }) := by
  constructor <;> intro h <;>
    simp [AcceptableProtocolsContextFactory.init, h]

/-- C8 witness: an incompatible candidate fails at wrapper-construction
time and a compatible one is stored unchanged. -/
theorem C8_wrapper_validation_witness :
    AcceptableProtocolsContextFactory.init badFactory0 alpnH2H1 =
      .error .doesNotImplement ∧
    AcceptableProtocolsContextFactory.init innerFactory0 alpnH2H1 =
      .ok { wrapped_context_factory := innerFactory0,
            acceptable_protocols := alpnH2H1 } :=
  ⟨(C8_wrapper_validation badFactory0 alpnH2H1).1 rfl,
   (C8_wrapper_validation innerFactory0 alpnH2H1).2 rfl⟩

end ContextFactory
